import Mathlib

/-!
Verification of the orchestration router of the QA-over-Text-and-Tabular-Data
repository (src/orchestration/orchestration.py), together with the pieces of
the SQL agent (src/agents/sql_agent.py) and summary agent
(src/agents/summary_agent.py) that the router contract depends on.

The Python code is embedded shallowly: the mutable `AgentState` dict becomes a
record threaded functionally; each LangGraph node becomes a function on that
record; external collaborators (classifier LLM, SQL agent, RAG agent,
summarizer LLM) become oracle functions supplied in a `Collaborators` record;
a collaborator raising an exception is modelled by `Except.error`.  The
compiled LangGraph run is `runGraph`, which follows the wiring of
`builder.add_node` / `add_conditional_edges` / `add_edge` literally and also
returns the ordered trace of nodes that executed.
-/

/-! ## Python string helpers

`str.strip()` removes leading and trailing whitespace; `str.lower()`
lower-cases.  The labels compared by the router are ASCII, for which
`Char.toLower` agrees with Python. -/

/-- Whitespace characters removed by Python `str.strip()`:
space, tab, newline, carriage return, vertical tab, form feed. -/
def pyIsSpace (c : Char) : Bool :=
  c == ' ' || c == '\t' || c == '\n' || c == '\r' || c == '\u000B' || c == '\u000C'

/-- Python `str.strip()`: drop whitespace from both ends. -/
def pyStrip (s : String) : String :=
  String.mk (((s.data.dropWhile pyIsSpace).reverse.dropWhile pyIsSpace).reverse)

/-- Python `str.lower()` (ASCII case folding). -/
def pyLower (s : String) : String :=
  String.mk (s.data.map Char.toLower)

/-- Python truthiness of `dict.get(key)` for an optional string field:
falsy when the key is absent or the value is the empty string. -/
def pyTruthy (o : Option String) : Bool :=
  o.getD "" != ""

/-- Python `sep.join(items)`. -/
def pyJoin (sep : String) : List String → String
  | [] => ""
  | [a] => a
  | a :: b :: rest => a ++ sep ++ pyJoin sep (b :: rest)

/-! ## SQL agent result shape

`run_sql_agent` returns a `SQLAgentOutput` TypedDict: either
`{"sql_query", "explanation", "rows"}` on success or `{"error"}` on a
reported failure.  `sql_node` probes it with `"error" in result` (key
presence) and `result.get(...)` (truthiness).  A row is kept as the string
`str(r)` that `sql_node` renders. -/

structure SQLAgentOutput where
  sql_query : Option String
  explanation : Option String
  rows : List String
  error : Option String
deriving DecidableEq, Repr

/-- Row aggregation of `validate_output` in src/agents/sql_agent.py:
rows fetched for each sub-query are concatenated and then truncated,
`output.rows = rows[:5]  # limit output for token safety`. -/
def validate_output_rows (fetched : List (List String)) : List String :=
  fetched.flatten.take 5

/-! ## Router state and collaborators -/

/-- The shared LangGraph state (`AgentState` TypedDict).  Callers invoke the
graph with only `input` and `rag_instance` set, so the remaining fields are
optional; `none` models an absent key.  `ι` is the type of the opaque
LightRAG handle. -/
structure AgentState (ι : Type) where
  input : String
  intent : Option String
  rag_output : Option String
  sql_output : Option String
  final_answer : Option String
  rag_instance : ι

/-- External collaborators of the router, as oracles.  `Except.error` models
the collaborator call raising an exception; `sqlAgent` returning
`Except.ok` with an `error` field models `run_sql_agent` returning an
`{"error": ...}` dict. -/
structure Collaborators (ι : Type) where
  classify : String → String
  sqlAgent : String → Except String SQLAgentOutput
  ragAgent : String → ι → Except String String
  summarizeLLM : String → String

/-! ## Nodes -/

/-- Node `classify`: `state["intent"] = response.output.strip().lower()`. -/
def classify_node {ι : Type} (c : Collaborators ι) (s : AgentState ι) : AgentState ι :=
  { s with intent := some (pyLower (pyStrip (c.classify s.input))) }

/-- Routing function after `classify`: `return state["intent"]`
(always set, since `classify` runs first). -/
def decide_next_step {ι : Type} (s : AgentState ι) : String :=
  s.intent.getD ""

/-- Display string built by `sql_node` from the collaborator result:
`"Error: {error}"` when the error key is present, otherwise the
`"\n\n"`-join of a query part (when truthy), an explanation part (when
truthy) and a rows part or `_No rows returned._` marker. -/
def renderSqlResult (result : SQLAgentOutput) : String :=
  match result.error with
  | some e => "Error: " ++ e
  | none =>
      let parts : List String :=
        (if pyTruthy result.sql_query then
          ["**Query:** `" ++ result.sql_query.getD "" ++ "`"] else [])
        ++ (if pyTruthy result.explanation then
          ["**Explanation:**\n" ++ result.explanation.getD ""] else [])
        ++ [if result.rows.isEmpty then "**Answer:**\n_No rows returned._"
            else "**Answer:**\n" ++ pyJoin "\n" result.rows]
      pyJoin "\n\n" parts

/-- Node `sql`: calls `run_sql_agent(state["input"])` and stores the display
string; an exception from the collaborator is not caught. -/
def sql_node {ι : Type} (c : Collaborators ι) (s : AgentState ι) :
    Except String (AgentState ι) :=
  match c.sqlAgent s.input with
  | Except.error e => Except.error e
  | Except.ok result => Except.ok { s with sql_output := some (renderSqlResult result) }

/-- Node `rag`: `state["rag_output"] = await run_rag_agent(state["input"],
lightrag=state["rag_instance"])`; no error handling around the call. -/
def rag_node {ι : Type} (c : Collaborators ι) (s : AgentState ι) :
    Except String (AgentState ι) :=
  match c.ragAgent s.input s.rag_instance with
  | Except.error e => Except.error e
  | Except.ok answer => Except.ok { s with rag_output := some answer }

/-- The list `outputs` built by `summarize_node`: `rag_output` first, then
`sql_output`, each included only when `state.get(...)` is truthy. -/
def summaryInputs {ι : Type} (s : AgentState ι) : List String :=
  (if pyTruthy s.rag_output then [s.rag_output.getD ""] else [])
  ++ (if pyTruthy s.sql_output then [s.sql_output.getD ""] else [])

/-- Adapter `run_summary_agent` in src/agents/summary_agent.py: joins the
inputs as `"Answer {i+1}: {out}"` paragraphs and passes them to the
summarizer model. -/
def run_summary_agent (llm : String → String) (agent_outputs : List String) : String :=
  llm (pyJoin "\n\n" (agent_outputs.enum.map
    (fun p => "Answer " ++ toString (p.1 + 1) ++ ": " ++ p.2)))

/-- Node `summarize`: `state["final_answer"] = await run_summary_agent(outputs)`. -/
def summarize_node {ι : Type} (c : Collaborators ι) (s : AgentState ι) : AgentState ι :=
  { s with final_answer := some (run_summary_agent c.summarizeLLM (summaryInputs s)) }

/-! ## Graph wiring -/

/-- Names of the four graph nodes. -/
inductive NodeName where
  | classify
  | sql
  | rag
  | summarize
deriving DecidableEq, Repr

/-- Errors the router run can raise to the caller: the conditional branch
after `classify` finding no destination for the intent label (LangGraph
raises on a label outside the path map), or an uncaught collaborator
exception inside a node. -/
inductive RouterError where
  | unknownIntent (label : String)
  | backend (msg : String)
deriving DecidableEq, Repr

/-- Path map of `add_conditional_edges("classify", decide_next_step, ...)`:
`{"sql": "sql", "rag": "rag", "hybrid": "rag"}`. -/
def classify_path_map : List (String × NodeName) :=
  [("sql", NodeName.sql), ("rag", NodeName.rag), ("hybrid", NodeName.rag)]

/-- Routing function after `rag`:
`lambda s: "sql" if s["intent"] == "hybrid" else "summarize"`. -/
def rag_route {ι : Type} (s : AgentState ι) : String :=
  if s.intent == some "hybrid" then "sql" else "summarize"

/-- One run of the compiled graph `multi_agent_graph` on an initial state:
entry point `classify`; conditional edges out of `classify` per
`classify_path_map` (a label with no destination raises); conditional edges
out of `rag` per `rag_route` with map `{"sql": "sql", "summarize":
"summarize"}`; fixed edge `sql → summarize`; `summarize → END`.  Returns the
outcome and the ordered list of nodes that executed. -/
def runGraph {ι : Type} (c : Collaborators ι) (s0 : AgentState ι) :
    Except RouterError (AgentState ι) × List NodeName :=
  let s1 := classify_node c s0
  match classify_path_map.lookup (decide_next_step s1) with
  | some NodeName.sql =>
      match sql_node c s1 with
      | Except.error e =>
          (Except.error (RouterError.backend e), [NodeName.classify, NodeName.sql])
      | Except.ok s2 =>
          (Except.ok (summarize_node c s2),
           [NodeName.classify, NodeName.sql, NodeName.summarize])
  | some NodeName.rag =>
      match rag_node c s1 with
      | Except.error e =>
          (Except.error (RouterError.backend e), [NodeName.classify, NodeName.rag])
      | Except.ok s2 =>
          if rag_route s2 == "sql" then
            match sql_node c s2 with
            | Except.error e =>
                (Except.error (RouterError.backend e),
                 [NodeName.classify, NodeName.rag, NodeName.sql])
            | Except.ok s3 =>
                (Except.ok (summarize_node c s3),
                 [NodeName.classify, NodeName.rag, NodeName.sql, NodeName.summarize])
          else
            (Except.ok (summarize_node c s2),
             [NodeName.classify, NodeName.rag, NodeName.summarize])
  | _ =>
      (Except.error (RouterError.unknownIntent (decide_next_step s1)), [NodeName.classify])

/-- Initial state as built by the callers of `multi_agent_graph.ainvoke`:
`{"input": question, "rag_instance": rag}`, all other keys absent. -/
def initState {ι : Type} (question : String) (rag : ι) : AgentState ι :=
  { input := question
    intent := none
    rag_output := none
    sql_output := none
    final_answer := none
    rag_instance := rag }

/-! ## Concrete collaborators used to witness the theorems -/

/-- Collaborators whose classifier always answers `label`, with fixed SQL and
RAG results. -/
def collabWith (label : String) (sqlRes : Except String SQLAgentOutput)
    (ragRes : Except String String) : Collaborators Unit :=
  { classify := fun _ => label
    sqlAgent := fun _ => sqlRes
    ragAgent := fun _ _ => ragRes
    summarizeLLM := fun s => s }

/-- A successful SQL collaborator result with one row. -/
def stubOk : SQLAgentOutput :=
  { sql_query := some "SELECT 1", explanation := some "", rows := ["row1"], error := none }

/-! ## Claims about the router -/

theorem lookup_sql_eq : classify_path_map.lookup "sql" = some NodeName.sql := rfl

theorem lookup_rag_eq : classify_path_map.lookup "rag" = some NodeName.rag := rfl

theorem lookup_hybrid_eq : classify_path_map.lookup "hybrid" = some NodeName.rag := rfl

theorem lookup_unknown_eq (lbl : String) (h1 : lbl ≠ "sql") (h2 : lbl ≠ "rag")
    (h3 : lbl ≠ "hybrid") : classify_path_map.lookup lbl = none := by
  have b1 : (lbl == "sql") = false := by simpa using h1
  have b2 : (lbl == "rag") = false := by simpa using h2
  have b3 : (lbl == "hybrid") = false := by simpa using h3
  simp [classify_path_map, List.lookup, b1, b2, b3]

/-- C1: an input classified `hybrid` makes the router execute exactly
`[classify, rag, sql, summarize]`, in that order (when the rag and sql
collaborator calls return). -/
theorem hybrid_visits_rag_then_sql_then_summarize {ι : Type}
    (c : Collaborators ι) (s0 : AgentState ι)
    (hlbl : pyLower (pyStrip (c.classify s0.input)) = "hybrid")
    (a : String) (hrag : c.ragAgent s0.input s0.rag_instance = Except.ok a)
    (r : SQLAgentOutput) (hsql : c.sqlAgent s0.input = Except.ok r) :
    (runGraph c s0).2
      = [NodeName.classify, NodeName.rag, NodeName.sql, NodeName.summarize] := by
  simp [runGraph, classify_node, decide_next_step, lookup_hybrid_eq,
    rag_node, rag_route, sql_node, hlbl, hrag, hsql]

theorem hybrid_visits_witness :
    (runGraph (collabWith " Hybrid \n" (Except.ok stubOk) (Except.ok "doc"))
        (initState "q" ())).2
      = [NodeName.classify, NodeName.rag, NodeName.sql, NodeName.summarize] :=
  hybrid_visits_rag_then_sql_then_summarize _ _ (by decide) "doc" rfl stubOk rfl

/-- C2: a classifier label that, after stripping and lower-casing, is none of
`sql`, `rag`, `hybrid` makes the run fail at the routing decision: the error
is raised to the caller, only `classify` has executed, and no state (hence
no `sql_output` or `rag_output`) is returned. -/
theorem unrecognized_intent_raises {ι : Type}
    (c : Collaborators ι) (s0 : AgentState ι)
    (h1 : pyLower (pyStrip (c.classify s0.input)) ≠ "sql")
    (h2 : pyLower (pyStrip (c.classify s0.input)) ≠ "rag")
    (h3 : pyLower (pyStrip (c.classify s0.input)) ≠ "hybrid") :
    (runGraph c s0).1
        = Except.error (RouterError.unknownIntent (pyLower (pyStrip (c.classify s0.input))))
      ∧ (runGraph c s0).2 = [NodeName.classify] := by
  constructor <;>
    simp [runGraph, classify_node, decide_next_step,
      lookup_unknown_eq (pyLower (pyStrip (c.classify s0.input))) h1 h2 h3]

theorem unrecognized_intent_witness :
    (runGraph (collabWith "chitchat" (Except.ok stubOk) (Except.ok "doc"))
        (initState "q" ())).1
      = Except.error (RouterError.unknownIntent
          (pyLower (pyStrip ((collabWith "chitchat" (Except.ok stubOk)
            (Except.ok "doc")).classify (initState "q" ()).input))))
    ∧ (runGraph (collabWith "chitchat" (Except.ok stubOk) (Except.ok "doc"))
        (initState "q" ())).2 = [NodeName.classify] :=
  unrecognized_intent_raises _ _ (by decide) (by decide) (by decide)

/-- C5: an input classified `sql` visits exactly `[classify, sql, summarize]`
and never `rag`; an input classified `rag` visits exactly
`[classify, rag, summarize]` and never `sql` (the exact-trace parts under
the assumption that the branch collaborator call returns; the
never-visited parts unconditionally). -/
theorem sql_and_rag_exclusive_routes {ι : Type}
    (c : Collaborators ι) (s0 : AgentState ι) :
    (pyLower (pyStrip (c.classify s0.input)) = "sql" →
      NodeName.rag ∉ (runGraph c s0).2
      ∧ ∀ r, c.sqlAgent s0.input = Except.ok r →
          (runGraph c s0).2 = [NodeName.classify, NodeName.sql, NodeName.summarize])
    ∧ (pyLower (pyStrip (c.classify s0.input)) = "rag" →
      NodeName.sql ∉ (runGraph c s0).2
      ∧ ∀ a, c.ragAgent s0.input s0.rag_instance = Except.ok a →
          (runGraph c s0).2 = [NodeName.classify, NodeName.rag, NodeName.summarize]) := by
  constructor
  · intro hlbl
    constructor
    · cases hs : c.sqlAgent s0.input <;>
        simp [runGraph, classify_node, decide_next_step, lookup_sql_eq,
          sql_node, hlbl, hs]
    · intro r hs
      simp [runGraph, classify_node, decide_next_step, lookup_sql_eq,
        sql_node, hlbl, hs]
  · intro hlbl
    constructor
    · cases hr : c.ragAgent s0.input s0.rag_instance <;>
        simp [runGraph, classify_node, decide_next_step, lookup_rag_eq,
          rag_node, rag_route, hlbl, hr]
    · intro a hr
      simp [runGraph, classify_node, decide_next_step, lookup_rag_eq,
        rag_node, rag_route, hlbl, hr]

/-! ## Claims about the SQL node's result shaping -/

/-- Rows rendered into the answer section by `sql_node`: the generator
expression `str(r) for r in result["rows"]` ranges over the whole row list,
so outside the error branch every row handed to the node is rendered. -/
def renderedRows (result : SQLAgentOutput) : List String :=
  if result.error.isSome then [] else result.rows

/-- A collaborator result carrying 50 rows, as in the 50-row stub of the
spec's testable property 4. -/
def stub50 : SQLAgentOutput :=
  { sql_query := some "SELECT all"
    explanation := some ""
    rows := (List.range 50).map (fun i => "row" ++ toString (i + 1))
    error := none }

set_option maxRecDepth 40000 in
/-- C3 counterexample: handed a collaborator result with 50 rows, `sql_node`
renders all 50 of them — its output string is the query block followed by
the join of the full row list, and the rendered row list has length 50,
not at most 5.  The node applies no truncation of its own. -/
theorem sql_node_renders_all_fifty_rows :
    stub50.rows.length = 50
    ∧ renderSqlResult stub50
        = "**Query:** `SELECT all`" ++ "\n\n" ++ "**Answer:**\n" ++ pyJoin "\n" stub50.rows
    ∧ renderedRows stub50 = stub50.rows
    ∧ ¬ (renderedRows stub50).length ≤ 5 := by
  refine ⟨by decide, ?_, by decide, by decide⟩
  decide

/-- C3 amended: the 5-row cap lives in the SQL agent's output validator
(`output.rows = rows[:5]` in validate_output), not in the node: any result
whose rows went through the validator carries, and hence renders, at most
5 rows. -/
theorem validator_caps_rows_at_five (fetched : List (List String))
    (result : SQLAgentOutput) (h : result.rows = validate_output_rows fetched) :
    (renderedRows result).length ≤ 5 := by
  unfold renderedRows
  split
  · simp
  · rw [h]
    simp [validate_output_rows]

theorem validator_caps_witness :
    (renderedRows
      { sql_query := some "SELECT all"
        explanation := some ""
        rows := validate_output_rows [["a", "b", "c"], ["d", "e", "f"]]
        error := none }).length ≤ 5 :=
  validator_caps_rows_at_five [["a", "b", "c"], ["d", "e", "f"]] _ rfl

/-- C4 counterexample: with the classifier answering `rag` and the RAG
collaborator failing, the failure is not captured into `rag_output`: the
run raises the backend error to the caller, the trace stops at
`[classify, rag]`, and `summarize` never executes. -/
theorem rag_failure_escapes_router :
    runGraph (collabWith "rag" (Except.ok stubOk) (Except.error "rag backend down"))
        (initState "q" ())
      = (Except.error (RouterError.backend "rag backend down"),
         [NodeName.classify, NodeName.rag])
    ∧ NodeName.summarize ∉
        (runGraph (collabWith "rag" (Except.ok stubOk) (Except.error "rag backend down"))
          (initState "q" ())).2 := by
  exact ⟨rfl, by decide⟩

/-- C4 amended: only failures the SQL collaborator reports as a result value
are captured: they become `sql_output = "Error: {msg}"` and the graph still
reaches `summarize`; an exception thrown by a collaborator propagates out
of the router uncaught. -/
theorem sql_reported_error_captured {ι : Type}
    (c : Collaborators ι) (s0 : AgentState ι)
    (hlbl : pyLower (pyStrip (c.classify s0.input)) = "sql")
    (result : SQLAgentOutput) (hres : c.sqlAgent s0.input = Except.ok result)
    (msg : String) (herr : result.error = some msg) :
    ∃ sf, (runGraph c s0).1 = Except.ok sf
      ∧ sf.sql_output = some ("Error: " ++ msg)
      ∧ (runGraph c s0).2 = [NodeName.classify, NodeName.sql, NodeName.summarize] := by
  refine ⟨summarize_node c
    { s0 with intent := some "sql", sql_output := some (renderSqlResult result) }, ?_, ?_, ?_⟩
  · simp [runGraph, classify_node, decide_next_step, lookup_sql_eq, sql_node, hlbl, hres]
  · simp [summarize_node, renderSqlResult, herr]
  · simp [runGraph, classify_node, decide_next_step, lookup_sql_eq, sql_node, hlbl, hres]

/-- A collaborator result reporting an error. -/
def stubErr : SQLAgentOutput :=
  { sql_query := none, explanation := none, rows := [], error := some "no such column" }

theorem sql_reported_error_witness :
    ∃ sf : AgentState Unit,
      (runGraph (collabWith "sql" (Except.ok stubErr) (Except.ok "doc"))
          (initState "q" ())).1 = Except.ok sf
      ∧ sf.sql_output = some ("Error: " ++ "no such column")
      ∧ (runGraph (collabWith "sql" (Except.ok stubErr) (Except.ok "doc"))
          (initState "q" ())).2
        = [NodeName.classify, NodeName.sql, NodeName.summarize] :=
  sql_reported_error_captured _ _ (by decide) stubErr rfl "no such column" rfl

/-- C6: the display string `sql_node` stores is `"Error: {error}"` when the
collaborator reports an error; otherwise it is the query block (when the
query string is non-empty) followed by the explanation block (when the
explanation is non-empty) followed by the rendered rows, with the literal
`_No rows returned._` marker when the row list is empty. -/
theorem sql_output_format (result : SQLAgentOutput) :
    (∀ e, result.error = some e → renderSqlResult result = "Error: " ++ e)
    ∧ (result.error = none →
        renderSqlResult result =
          (if pyTruthy result.sql_query then
            "**Query:** `" ++ result.sql_query.getD "" ++ "`" ++ "\n\n" else "")
          ++ (if pyTruthy result.explanation then
            "**Explanation:**\n" ++ result.explanation.getD "" ++ "\n\n" else "")
          ++ (if result.rows.isEmpty then "**Answer:**\n_No rows returned._"
              else "**Answer:**\n" ++ pyJoin "\n" result.rows)) := by
  constructor
  · intro e he
    simp [renderSqlResult, he]
  · intro he
    by_cases hq : pyTruthy result.sql_query <;>
      by_cases hx : pyTruthy result.explanation <;>
        simp [renderSqlResult, he, hq, hx, pyJoin, String.append_assoc]

/-- A successful collaborator result with two rows and an empty explanation. -/
def fmtStub : SQLAgentOutput :=
  { sql_query := some "SELECT 1"
    explanation := some ""
    rows := ["a", "b"]
    error := none }

theorem sql_output_format_witness :
    renderSqlResult fmtStub
      = (if pyTruthy fmtStub.sql_query then
          "**Query:** `" ++ fmtStub.sql_query.getD "" ++ "`" ++ "\n\n" else "")
        ++ (if pyTruthy fmtStub.explanation then
          "**Explanation:**\n" ++ fmtStub.explanation.getD "" ++ "\n\n" else "")
        ++ (if fmtStub.rows.isEmpty then "**Answer:**\n_No rows returned._"
            else "**Answer:**\n" ++ pyJoin "\n" fmtStub.rows) :=
  (sql_output_format fmtStub).2 rfl

theorem sql_and_rag_exclusive_witness :
    (runGraph (collabWith "sql" (Except.ok stubOk) (Except.ok "doc"))
        (initState "q" ())).2 = [NodeName.classify, NodeName.sql, NodeName.summarize]
    ∧ (runGraph (collabWith " RAG " (Except.ok stubOk) (Except.ok "doc"))
        (initState "q" ())).2 = [NodeName.classify, NodeName.rag, NodeName.summarize] :=
  ⟨((sql_and_rag_exclusive_routes (collabWith "sql" (Except.ok stubOk) (Except.ok "doc"))
        (initState "q" ())).1 (by decide)).2 stubOk rfl,
   ((sql_and_rag_exclusive_routes (collabWith " RAG " (Except.ok stubOk) (Except.ok "doc"))
        (initState "q" ())).2 (by decide)).2 "doc" rfl⟩

/-! ## Claims about the summarize node and cross-node independence -/

/-- A state in which both the rag and sql nodes have produced output. -/
def bothState : AgentState Unit :=
  { input := "q"
    intent := some "hybrid"
    rag_output := some "R"
    sql_output := some "S"
    final_answer := none
    rag_instance := () }

/-- C7: `summarize_node` hands `run_summary_agent` an ordered list of at most
two strings, with `rag_output` before `sql_output` whenever both are
present (non-empty). -/
theorem summarizer_input_order {ι : Type} (c : Collaborators ι) (s : AgentState ι) :
    (summarize_node c s).final_answer
      = some (run_summary_agent c.summarizeLLM (summaryInputs s))
    ∧ (summaryInputs s).length ≤ 2
    ∧ (pyTruthy s.rag_output → pyTruthy s.sql_output →
        summaryInputs s = [s.rag_output.getD "", s.sql_output.getD ""]) := by
  refine ⟨rfl, ?_, ?_⟩
  · unfold summaryInputs
    by_cases h1 : pyTruthy s.rag_output <;> by_cases h2 : pyTruthy s.sql_output <;>
      simp [h1, h2]
  · intro h1 h2
    simp [summaryInputs, h1, h2]

theorem summarizer_input_order_witness :
    summaryInputs bothState = [bothState.rag_output.getD "", bothState.sql_output.getD ""] :=
  (summarizer_input_order (collabWith "x" (Except.ok stubOk) (Except.ok "doc"))
    bothState).2.2 (by decide) (by decide)

/-- C8: the sql node reads only the input question, so two states differing
only in `rag_output` yield the same `sql_output` under the same
collaborators (noninterference of the RAG output with the SQL stage). -/
theorem sql_node_ignores_rag_output {ι : Type} (c : Collaborators ι)
    (s : AgentState ι) (r : Option String) :
    (sql_node c { s with rag_output := r }).map AgentState.sql_output
      = (sql_node c s).map AgentState.sql_output := by
  cases hs : c.sqlAgent s.input <;> simp [sql_node, hs, Except.map]

/-- C9: each node writes only its designated state field: `classify_node`
only `intent`, `sql_node` only `sql_output`, `rag_node` only `rag_output`,
`summarize_node` only `final_answer`; in particular no node changes the
input question or the rag_instance handle. -/
theorem nodes_frame {ι : Type} (c : Collaborators ι) (s : AgentState ι) :
    ((classify_node c s).input = s.input
      ∧ (classify_node c s).rag_output = s.rag_output
      ∧ (classify_node c s).sql_output = s.sql_output
      ∧ (classify_node c s).final_answer = s.final_answer
      ∧ (classify_node c s).rag_instance = s.rag_instance)
    ∧ (∀ s2, sql_node c s = Except.ok s2 →
        s2.input = s.input ∧ s2.intent = s.intent ∧ s2.rag_output = s.rag_output
          ∧ s2.final_answer = s.final_answer ∧ s2.rag_instance = s.rag_instance)
    ∧ (∀ s2, rag_node c s = Except.ok s2 →
        s2.input = s.input ∧ s2.intent = s.intent ∧ s2.sql_output = s.sql_output
          ∧ s2.final_answer = s.final_answer ∧ s2.rag_instance = s.rag_instance)
    ∧ ((summarize_node c s).input = s.input
      ∧ (summarize_node c s).intent = s.intent
      ∧ (summarize_node c s).rag_output = s.rag_output
      ∧ (summarize_node c s).sql_output = s.sql_output
      ∧ (summarize_node c s).rag_instance = s.rag_instance) := by
  refine ⟨⟨rfl, rfl, rfl, rfl, rfl⟩, ?_, ?_, ⟨rfl, rfl, rfl, rfl, rfl⟩⟩
  · intro s2 h
    cases hs : c.sqlAgent s.input <;> simp [sql_node, hs] at h
    subst h
    exact ⟨rfl, rfl, rfl, rfl, rfl⟩
  · intro s2 h
    cases hr : c.ragAgent s.input s.rag_instance <;> simp [rag_node, hr] at h
    subst h
    exact ⟨rfl, rfl, rfl, rfl, rfl⟩

/-- The state produced by the sql node from the initial state under a stub
collaborator. -/
def sqlNodeResult : AgentState Unit :=
  { initState "q" () with sql_output := some (renderSqlResult stubOk) }

theorem nodes_frame_witness :
    sqlNodeResult.input = (initState "q" ()).input
    ∧ sqlNodeResult.intent = (initState "q" ()).intent
    ∧ sqlNodeResult.rag_output = (initState "q" ()).rag_output
    ∧ sqlNodeResult.final_answer = (initState "q" ()).final_answer
    ∧ sqlNodeResult.rag_instance = (initState "q" ()).rag_instance :=
  (nodes_frame (collabWith "sql" (Except.ok stubOk) (Except.ok "doc"))
    (initState "q" ())).2.1 sqlNodeResult rfl

/-- Membership in the list handed to the summarizer. -/
theorem mem_summaryInputs {ι : Type} (s : AgentState ι) (x : String) :
    x ∈ summaryInputs s
      ↔ (pyTruthy s.rag_output ∧ x = s.rag_output.getD "")
        ∨ (pyTruthy s.sql_output ∧ x = s.sql_output.getD "") := by
  unfold summaryInputs
  by_cases h1 : pyTruthy s.rag_output <;> by_cases h2 : pyTruthy s.sql_output <;>
    simp [h1, h2]

/-- C10: `summarize_node` always invokes the summarizer on `summaryInputs`;
that list contains a node output exactly when the field is present and
non-empty — the empty string never occurs in it — and when both outputs
are absent or empty the summarizer still runs on the empty list. -/
theorem summarize_inclusion {ι : Type} (c : Collaborators ι) (s : AgentState ι) :
    (summarize_node c s).final_answer
      = some (run_summary_agent c.summarizeLLM (summaryInputs s))
    ∧ "" ∉ summaryInputs s
    ∧ (∀ r, s.rag_output = some r → r ≠ "" → r ∈ summaryInputs s)
    ∧ (∀ q, s.sql_output = some q → q ≠ "" → q ∈ summaryInputs s)
    ∧ (pyTruthy s.rag_output = false → pyTruthy s.sql_output = false →
        summaryInputs s = []) := by
  refine ⟨rfl, ?_, ?_, ?_, ?_⟩
  · intro hmem
    rcases (mem_summaryInputs s "").1 hmem with ⟨h, he⟩ | ⟨h, he⟩
    · have h' : s.rag_output.getD "" ≠ "" := by simpa [pyTruthy] using h
      exact h' he.symm
    · have h' : s.sql_output.getD "" ≠ "" := by simpa [pyTruthy] using h
      exact h' he.symm
  · intro r hr hne
    refine (mem_summaryInputs s r).2 (Or.inl ⟨?_, ?_⟩) <;> simp [pyTruthy, hr, hne]
  · intro q hq hne
    refine (mem_summaryInputs s q).2 (Or.inr ⟨?_, ?_⟩) <;> simp [pyTruthy, hq, hne]
  · intro h1 h2
    simp [summaryInputs, h1, h2]

theorem summarize_inclusion_witness :
    "R" ∈ summaryInputs bothState :=
  (summarize_inclusion (collabWith "x" (Except.ok stubOk) (Except.ok "doc"))
    bothState).2.2.1 "R" rfl (by decide)
